import Mathlib

/-!
Verification of the financial-formula catalog (`financial_formulas.py`) and
the unit-conversion utility (`input.py`).

Modelling conventions:
* Python floats are modelled as exact rationals (`ℚ`); every Python float is
  a dyadic rational, and the contracts under verification are stated in real
  arithmetic.  Functions whose result involves `math.sqrt` or a fractional
  power return a real number (`ℝ`).
* A Python function that can raise returns `Except PyErr _`.  `PyErr`
  distinguishes the three ways a catalog call can fail: an explicit
  `raise ValueError(...)` guard (the catalog's "invalid input" signal), a
  `ZeroDivisionError` from an unguarded `/` with zero divisor, and the
  "math domain error" that `math.sqrt` raises on a negative argument.
* Division between two already-computed rationals with a non-zero divisor is
  plain field division, exactly as in Python's real-valued semantics.
-/

namespace Calculator

/-- The failure modes observable from the catalog, by raising site:
`valueError` for an explicit `raise ValueError` guard, `zeroDivisionError`
for Python's runtime error on `x / 0`, and `mathDomainError` for the
domain error `math.sqrt` raises on a negative argument. -/
inductive PyErr where
  | valueError
  | zeroDivisionError
  | mathDomainError
deriving DecidableEq

/-- Python's `/` on floats: raises `ZeroDivisionError` when the divisor is
zero, otherwise exact division. -/
def pydiv (a b : ℚ) : Except PyErr ℚ :=
  if b = 0 then .error .zeroDivisionError else .ok (a / b)

/-- Python's `math.sqrt`: raises the math domain error on a negative
argument, otherwise the real square root. -/
noncomputable def math_sqrt (x : ℚ) : Except PyErr ℝ :=
  if x < 0 then .error .mathDomainError else .ok (Real.sqrt x)

/-- `price_to_earnings_ratio` from `financial_formulas.py`:
guarded division of market price by EPS. -/
def price_to_earnings_ratio (market_price_per_share eps : ℚ) : Except PyErr ℚ :=
  if eps = 0 then .error .valueError
  else .ok (market_price_per_share / eps)

/-- The magnitude units of `CONVERSION_FACTORS` in `input.py`. -/
inductive MagnitudeUnit where
  | thousand
  | lakhs
  | million
  | cr
  | billion
deriving DecidableEq

/-- The `CONVERSION_FACTORS` table of `input.py`. -/
def CONVERSION_FACTORS : MagnitudeUnit → ℚ
  | .thousand => 1000
  | .lakhs => 100000
  | .million => 1000000
  | .cr => 10000000
  | .billion => 1000000000

/-- `convert_units` from `input.py`: identity on equal units, otherwise
multiply by the source factor and divide by the target factor. -/
def convert_units (value : ℚ) (from_unit to_unit : MagnitudeUnit) : ℚ :=
  if from_unit = to_unit then value
  else value * CONVERSION_FACTORS from_unit / CONVERSION_FACTORS to_unit

/-- `altman_z_score` from `financial_formulas.py`: the public-company
Z-Score.  The five component ratios are computed by *unguarded* Python
division, so a zero denominator surfaces as `ZeroDivisionError`. -/
def altman_z_score (working_capital total_assets retained_earnings ebit
    market_value_equity book_value_liabilities sales : ℚ) : Except PyErr ℚ := do
  let A ← pydiv working_capital total_assets
  let B ← pydiv retained_earnings total_assets
  let C ← pydiv ebit total_assets
  let D ← pydiv market_value_equity book_value_liabilities
  let E ← pydiv sales total_assets
  return 1.2 * A + 1.4 * B + 3.3 * C + 0.6 * D + 1.0 * E

/-- `altman_z_score_private` from `financial_formulas.py`: the
private-company Z-Score, likewise with unguarded division. -/
def altman_z_score_private (working_capital total_assets retained_earnings ebit
    book_value_equity total_liabilities sales : ℚ) : Except PyErr ℚ := do
  let A ← pydiv working_capital total_assets
  let B ← pydiv retained_earnings total_assets
  let C ← pydiv ebit total_assets
  let D ← pydiv book_value_equity total_liabilities
  let E ← pydiv sales total_assets
  return 0.717 * A + 0.847 * B + 3.107 * C + 0.420 * D + 0.998 * E

/-- `piotroski_f_score` from `financial_formulas.py`: nine sequential
binary tests, each adding one point to an accumulator starting at zero. -/
def piotroski_f_score (roa_current operating_cf_current roa_previous
    operating_cf_previous net_income_current long_term_debt_current
    long_term_debt_previous current_ratio_current current_ratio_previous
    shares_current shares_previous gross_margin_current gross_margin_previous
    asset_turnover_current asset_turnover_previous : ℚ) : ℕ :=
  let score := 0
  let score := if roa_current > 0 then score + 1 else score
  let score := if operating_cf_current > 0 then score + 1 else score
  let score := if roa_current > roa_previous then score + 1 else score
  let score := if operating_cf_current > net_income_current then score + 1 else score
  let score := if long_term_debt_current < long_term_debt_previous then score + 1 else score
  let score := if current_ratio_current > current_ratio_previous then score + 1 else score
  let score := if shares_current ≤ shares_previous then score + 1 else score
  let score := if gross_margin_current > gross_margin_previous then score + 1 else score
  let score := if asset_turnover_current > asset_turnover_previous then score + 1 else score
  score

/-- `terminal_value_gordon_growth` from `financial_formulas.py`. -/
def terminal_value_gordon_growth (fcf_next_year wacc growth_rate : ℚ) : Except PyErr ℚ :=
  if wacc ≤ growth_rate then .error .valueError
  else .ok (fcf_next_year / (wacc - growth_rate))

/-- `fcfe_terminal_value` from `financial_formulas.py`. -/
def fcfe_terminal_value (fcfe_next_year cost_of_equity growth_rate : ℚ) : Except PyErr ℚ :=
  if cost_of_equity ≤ growth_rate then .error .valueError
  else .ok (fcfe_next_year / (cost_of_equity - growth_rate))

/-- `gordon_growth_model` from `financial_formulas.py`. -/
def gordon_growth_model (dividend_next_year cost_of_equity growth_rate : ℚ) : Except PyErr ℚ :=
  if cost_of_equity ≤ growth_rate then .error .valueError
  else .ok (dividend_next_year / (cost_of_equity - growth_rate))

/-- `justified_pe_stable_growth` from `financial_formulas.py`. -/
def justified_pe_stable_growth (payout_ratio growth_rate cost_of_equity : ℚ) : Except PyErr ℚ :=
  if cost_of_equity ≤ growth_rate then .error .valueError
  else .ok (payout_ratio * (1 + growth_rate) / (cost_of_equity - growth_rate))

/-- `justified_pb_ratio` from `financial_formulas.py`. -/
def justified_pb_ratio (roe growth_rate cost_of_equity : ℚ) : Except PyErr ℚ :=
  if cost_of_equity ≤ growth_rate then .error .valueError
  else .ok ((roe - growth_rate) / (cost_of_equity - growth_rate))

/-- `justified_ps_ratio` from `financial_formulas.py`. -/
def justified_ps_ratio (profit_margin payout_ratio growth_rate cost_of_equity : ℚ) :
    Except PyErr ℚ :=
  if cost_of_equity ≤ growth_rate then .error .valueError
  else .ok (profit_margin * payout_ratio * (1 + growth_rate) / (cost_of_equity - growth_rate))

/-- `justified_ev_ebitda` from `financial_formulas.py`. -/
def justified_ev_ebitda (tax_rate reinvestment_rate growth_rate wacc : ℚ) : Except PyErr ℚ :=
  if wacc ≤ growth_rate then .error .valueError
  else .ok ((1 - tax_rate) * (1 - reinvestment_rate) * (1 + growth_rate) / (wacc - growth_rate))

/-- `justified_ev_sales` from `financial_formulas.py`. -/
def justified_ev_sales (operating_margin tax_rate reinvestment_rate growth_rate wacc : ℚ) :
    Except PyErr ℚ :=
  if wacc ≤ growth_rate then .error .valueError
  else .ok (operating_margin * (1 - tax_rate) * (1 - reinvestment_rate) * (1 + growth_rate) /
    (wacc - growth_rate))

/-- `sample_variance` from `financial_formulas.py`: sum of squared
deviations from the mean, divided by `n - 1`; requires at least two
data points. -/
def sample_variance (data : List ℚ) : Except PyErr ℚ :=
  if data.length < 2 then .error .valueError
  else
    let mean := data.sum / data.length
    let sum_squared_diff := (data.map (fun x => (x - mean) ^ 2)).sum
    .ok (sum_squared_diff / (↑(data.length - 1) : ℚ))

/-- `population_variance` from `financial_formulas.py`: sum of squared
deviations from the mean, divided by `n`; requires a non-empty list. -/
def population_variance (data : List ℚ) : Except PyErr ℚ :=
  if data.length = 0 then .error .valueError
  else
    let mean := data.sum / data.length
    let sum_squared_diff := (data.map (fun x => (x - mean) ^ 2)).sum
    .ok (sum_squared_diff / data.length)

/-- `downside_deviation` from `financial_formulas.py`: square root of the
mean (over `n`, not `n - 1`) of the squared shortfalls `min(0, r - MAR)`. -/
noncomputable def downside_deviation (returns : List ℚ) (mar : ℚ) : Except PyErr ℝ :=
  if returns.length = 0 then .error .valueError
  else
    let downside_squared := (returns.map (fun r => (min 0 (r - mar)) ^ 2)).sum
    .ok (Real.sqrt ((downside_squared / returns.length : ℚ)))

/-- `compound_annual_growth_rate` from `financial_formulas.py`:
`((ending / beginning) ** (1 / years) - 1) * 100` behind two zero guards.
Real exponentiation models Python's float power on the domain where it is
real-valued. -/
noncomputable def compound_annual_growth_rate
    (ending_value beginning_value number_of_years : ℚ) : Except PyErr ℝ :=
  if beginning_value = 0 then .error .valueError
  else if number_of_years = 0 then .error .valueError
  else .ok ((((ending_value / beginning_value : ℚ) : ℝ) ^
    (((1 / number_of_years : ℚ) : ℝ)) - 1) * 100)

/-- `graham_number` from `financial_formulas.py`:
`math.sqrt(22.5 * eps * bvps)` with no guard of its own. -/
noncomputable def graham_number (eps bvps : ℚ) : Except PyErr ℝ :=
  math_sqrt (22.5 * eps * bvps)

/-- `sample_covariance` from `financial_formulas.py`: paired-sequence
covariance divided by `n - 1`, guarded on length mismatch and `n < 2`. -/
def sample_covariance (x y : List ℚ) : Except PyErr ℚ :=
  if x.length ≠ y.length then .error .valueError
  else if x.length < 2 then .error .valueError
  else
    let mean_x := x.sum / x.length
    let mean_y := y.sum / y.length
    let sum_product := ((x.zip y).map (fun p => (p.1 - mean_x) * (p.2 - mean_y))).sum
    .ok (sum_product / (↑(x.length - 1) : ℚ))

/-- `sample_standard_deviation` from `financial_formulas.py`:
`math.sqrt(sample_variance(data))`, propagating the variance guard. -/
noncomputable def sample_standard_deviation (data : List ℚ) : Except PyErr ℝ := do
  let v ← sample_variance data
  math_sqrt v

/-- `correlation_coefficient` from `financial_formulas.py`: sample
covariance over the product of the sample standard deviations, guarded on
length mismatch and on a zero standard deviation. -/
noncomputable def correlation_coefficient (x y : List ℚ) : Except PyErr ℝ := do
  if x.length ≠ y.length then .error .valueError
  else
    let cov ← sample_covariance x y
    let std_x ← sample_standard_deviation x
    let std_y ← sample_standard_deviation y
    if std_x = 0 ∨ std_y = 0 then .error .valueError
    else .ok ((cov : ℝ) / (std_x * std_y))

lemma stable_guard_iff (num r g : ℚ) :
    ((if r ≤ g then (Except.error PyErr.valueError : Except PyErr ℚ)
        else .ok (num / (r - g))) = .error .valueError ↔ r ≤ g) ∧
    (g < r →
      (if r ≤ g then (Except.error PyErr.valueError : Except PyErr ℚ)
        else .ok (num / (r - g))) = .ok (num / (r - g))) := by
  constructor
  · split_ifs with h <;> simp [h]
  · intro h
    rw [if_neg (not_le.mpr h)]

lemma ite_add_toNat (s : ℕ) (p : Prop) [Decidable p] :
    (if p then s + 1 else s) = s + (decide p).toNat := by
  by_cases h : p <;> simp [h]

lemma bool_toNat_le_one (b : Bool) : b.toNat ≤ 1 := by
  cases b <;> simp

lemma except_bind_ok {α β : Type} (a : α) (f : α → Except PyErr β) :
    (Except.ok a >>= f) = f a := rfl

lemma zip_self_eq_map (x : List ℚ) : x.zip x = x.map (fun a => (a, a)) := by
  induction x with
  | nil => rfl
  | cons a t ih => simp [ih]

lemma zip_map_neg (x : List ℚ) :
    x.zip (x.map (fun a => -a)) = x.map (fun a => (a, -a)) := by
  induction x with
  | nil => rfl
  | cons a t ih => simp [ih]

lemma list_sum_neg (x : List ℚ) : (x.map (fun a => -a)).sum = -x.sum := by
  induction x with
  | nil => simp
  | cons a t ih => simp [ih]; ring

lemma sum_map_neg (x : List ℚ) (f : ℚ → ℚ) :
    (x.map (fun a => -f a)).sum = -(x.map f).sum := by
  induction x with
  | nil => simp
  | cons a t ih => simp [ih]; ring

lemma sample_variance_ok (x : List ℚ) (h2 : 2 ≤ x.length) :
    sample_variance x =
      .ok ((x.map (fun a => (a - x.sum / x.length) ^ 2)).sum /
        (↑(x.length - 1) : ℚ)) := by
  rw [sample_variance, if_neg (by omega)]

lemma sample_covariance_ok (x y : List ℚ) (hlen : x.length = y.length)
    (h2 : 2 ≤ x.length) :
    sample_covariance x y =
      .ok (((x.zip y).map
          (fun p => (p.1 - x.sum / x.length) * (p.2 - y.sum / y.length))).sum /
        (↑(x.length - 1) : ℚ)) := by
  rw [sample_covariance, if_neg (by simp [hlen]), if_neg (by omega)]

lemma sample_standard_deviation_ok (x : List ℚ) (v : ℚ)
    (hv : sample_variance x = .ok v) (h0 : 0 ≤ v) :
    sample_standard_deviation x = .ok (Real.sqrt v) := by
  rw [sample_standard_deviation, hv, except_bind_ok, math_sqrt,
    if_neg (not_lt.mpr h0)]

/-- C1: a guarded-denominator formula raises the invalid-input error exactly
at denominator zero and otherwise divides exactly: `price_to_earnings_ratio`
errors at `eps = 0`, returns `price / eps` for `eps ≠ 0`, and in particular
maps `(100, 10)` to `10` and `(100, 0)` to the invalid-input error. -/
theorem pe_ratio_guarded_division :
    (∀ p d : ℚ, price_to_earnings_ratio p 0 = .error .valueError ∧
      (d ≠ 0 → price_to_earnings_ratio p d = .ok (p / d))) ∧
    price_to_earnings_ratio 100 10 = .ok 10 ∧
    price_to_earnings_ratio 100 0 = .error .valueError := by
  refine ⟨fun p d => ⟨rfl, fun hd => ?_⟩, by norm_num [price_to_earnings_ratio], rfl⟩
  simp [price_to_earnings_ratio, hd]

/-- Closed witness for `pe_ratio_guarded_division`: the non-zero-denominator
branch evaluated at the concrete pair `(100, 10)`. -/
theorem pe_ratio_guarded_division_witness :
    (10 : ℚ) ≠ 0 ∧ price_to_earnings_ratio 100 10 = .ok (100 / 10) :=
  ⟨by norm_num, (pe_ratio_guarded_division.1 100 10).2 (by norm_num)⟩

/-- C8: converting a value from unit `u` to unit `v` and back returns the
original value exactly, for every pair of units in the magnitude table. -/
theorem convert_units_round_trip :
    ∀ (x : ℚ) (u v : MagnitudeUnit),
      convert_units (convert_units x u v) v u = x := by
  intro x u v
  cases u <;> cases v <;>
    simp [convert_units, CONVERSION_FACTORS]

/-- C2 counterexample: `altman_z_score` called with `total_assets = 0`
raises `ZeroDivisionError`, not the catalog's explicit invalid-input
`ValueError`. -/
theorem altman_zero_assets_not_value_error :
    altman_z_score 1 0 1 1 1 1 1 = .error .zeroDivisionError ∧
    altman_z_score 1 0 1 1 1 1 1 ≠ .error .valueError := by
  refine ⟨rfl, ?_⟩
  intro h
  rw [show altman_z_score 1 0 1 1 1 1 1 =
    (Except.error PyErr.zeroDivisionError : Except PyErr ℚ) from rfl] at h
  injection h with h'
  exact PyErr.noConfusion h'

/-- C2 (amended): the two Altman Z-Score formulas perform unguarded
divisions, so a zero `total_assets` (or a zero liabilities denominator with
non-zero assets) surfaces as a `ZeroDivisionError`, never as the explicit
invalid-input `ValueError` the rest of the catalog raises. -/
theorem altman_unguarded_division :
    ∀ wc ta re eb d tl s : ℚ,
      (ta = 0 → altman_z_score wc ta re eb d tl s = .error .zeroDivisionError) ∧
      (ta ≠ 0 → tl = 0 → altman_z_score wc ta re eb d tl s = .error .zeroDivisionError) ∧
      (ta = 0 → altman_z_score_private wc ta re eb d tl s = .error .zeroDivisionError) ∧
      (ta ≠ 0 → tl = 0 → altman_z_score_private wc ta re eb d tl s = .error .zeroDivisionError) := by
  intro wc ta re eb d tl s
  refine ⟨fun hta => ?_, fun hta htl => ?_, fun hta => ?_, fun hta htl => ?_⟩
  · subst hta; simp [altman_z_score, pydiv, Bind.bind, Except.bind]
  · subst htl; simp [altman_z_score, pydiv, hta, Bind.bind, Except.bind]
  · subst hta; simp [altman_z_score_private, pydiv, Bind.bind, Except.bind]
  · subst htl; simp [altman_z_score_private, pydiv, hta, Bind.bind, Except.bind]

/-- Closed witness for `altman_unguarded_division`: both zero-denominator
cases evaluated at concrete inputs. -/
theorem altman_unguarded_division_witness :
    ((0 : ℚ) = 0 ∧ altman_z_score 1 0 1 1 1 1 1 = .error .zeroDivisionError) ∧
    ((1 : ℚ) ≠ 0 ∧ (0 : ℚ) = 0 ∧
      altman_z_score_private 1 1 1 1 1 0 1 = .error .zeroDivisionError) :=
  ⟨⟨rfl, (altman_unguarded_division 1 0 1 1 1 1 1).1 rfl⟩,
   ⟨by norm_num, rfl,
    (altman_unguarded_division 1 1 1 1 1 0 1).2.2.2 (by norm_num) rfl⟩⟩

/-- C3: the Piotroski F-Score equals the number of its nine binary tests
that pass (each a decidable comparison, with the dilution test non-strict
and all improvement tests strict), hence lies in `0..9`; all nine tests
passing yields 9, none passing yields 0, and with every "current" figure
equal to its "previous" figure (and non-positive levels) only the dilution
tie awards a point, giving 1. -/
theorem piotroski_f_score_counts_tests :
    (∀ roa_c ocf_c roa_p ocf_p ni_c ltd_c ltd_p cr_c cr_p sh_c sh_p gm_c gm_p at_c at_p : ℚ,
      piotroski_f_score roa_c ocf_c roa_p ocf_p ni_c ltd_c ltd_p cr_c cr_p
          sh_c sh_p gm_c gm_p at_c at_p =
        (decide (roa_c > 0)).toNat + (decide (ocf_c > 0)).toNat +
        (decide (roa_c > roa_p)).toNat + (decide (ocf_c > ni_c)).toNat +
        (decide (ltd_c < ltd_p)).toNat + (decide (cr_c > cr_p)).toNat +
        (decide (sh_c ≤ sh_p)).toNat + (decide (gm_c > gm_p)).toNat +
        (decide (at_c > at_p)).toNat ∧
      piotroski_f_score roa_c ocf_c roa_p ocf_p ni_c ltd_c ltd_p cr_c cr_p
          sh_c sh_p gm_c gm_p at_c at_p ≤ 9) ∧
    piotroski_f_score 1 1 0 0 0 0 1 1 0 1 1 1 0 1 0 = 9 ∧
    piotroski_f_score 0 0 0 0 0 0 0 0 0 1 0 0 0 0 0 = 0 ∧
    piotroski_f_score 0 0 0 0 0 0 0 0 0 1 1 0 0 0 0 = 1 := by
  refine ⟨fun roa_c ocf_c roa_p ocf_p ni_c ltd_c ltd_p cr_c cr_p sh_c sh_p gm_c gm_p at_c at_p
    => ?_, by norm_num [piotroski_f_score], by norm_num [piotroski_f_score],
    by norm_num [piotroski_f_score]⟩
  have heq : piotroski_f_score roa_c ocf_c roa_p ocf_p ni_c ltd_c ltd_p cr_c cr_p
      sh_c sh_p gm_c gm_p at_c at_p =
      (decide (roa_c > 0)).toNat + (decide (ocf_c > 0)).toNat +
      (decide (roa_c > roa_p)).toNat + (decide (ocf_c > ni_c)).toNat +
      (decide (ltd_c < ltd_p)).toNat + (decide (cr_c > cr_p)).toNat +
      (decide (sh_c ≤ sh_p)).toNat + (decide (gm_c > gm_p)).toNat +
      (decide (at_c > at_p)).toNat := by
    simp only [piotroski_f_score, ite_add_toNat]
    omega
  refine ⟨heq, ?_⟩
  rw [heq]
  have h1 := bool_toNat_le_one (decide (roa_c > 0))
  have h2 := bool_toNat_le_one (decide (ocf_c > 0))
  have h3 := bool_toNat_le_one (decide (roa_c > roa_p))
  have h4 := bool_toNat_le_one (decide (ocf_c > ni_c))
  have h5 := bool_toNat_le_one (decide (ltd_c < ltd_p))
  have h6 := bool_toNat_le_one (decide (cr_c > cr_p))
  have h7 := bool_toNat_le_one (decide (sh_c ≤ sh_p))
  have h8 := bool_toNat_le_one (decide (gm_c > gm_p))
  have h9 := bool_toNat_le_one (decide (at_c > at_p))
  omega

/-- C4: each stable-growth / terminal-value formula raises the invalid-input
error exactly when the discount rate is at most the growth rate, and for a
strictly greater discount rate returns its documented numerator divided by
(rate − growth); in particular `gordon_growth_model 5 0.08 0.08` raises the
invalid-input error. -/
theorem stable_growth_family_guard :
    (∀ fcf r g : ℚ,
      (terminal_value_gordon_growth fcf r g = .error .valueError ↔ r ≤ g) ∧
      (g < r → terminal_value_gordon_growth fcf r g = .ok (fcf / (r - g)))) ∧
    (∀ fcfe r g : ℚ,
      (fcfe_terminal_value fcfe r g = .error .valueError ↔ r ≤ g) ∧
      (g < r → fcfe_terminal_value fcfe r g = .ok (fcfe / (r - g)))) ∧
    (∀ div r g : ℚ,
      (gordon_growth_model div r g = .error .valueError ↔ r ≤ g) ∧
      (g < r → gordon_growth_model div r g = .ok (div / (r - g)))) ∧
    (∀ po g r : ℚ,
      (justified_pe_stable_growth po g r = .error .valueError ↔ r ≤ g) ∧
      (g < r → justified_pe_stable_growth po g r = .ok (po * (1 + g) / (r - g)))) ∧
    (∀ roe g r : ℚ,
      (justified_pb_ratio roe g r = .error .valueError ↔ r ≤ g) ∧
      (g < r → justified_pb_ratio roe g r = .ok ((roe - g) / (r - g)))) ∧
    (∀ pm po g r : ℚ,
      (justified_ps_ratio pm po g r = .error .valueError ↔ r ≤ g) ∧
      (g < r → justified_ps_ratio pm po g r = .ok (pm * po * (1 + g) / (r - g)))) ∧
    (∀ t rr g r : ℚ,
      (justified_ev_ebitda t rr g r = .error .valueError ↔ r ≤ g) ∧
      (g < r → justified_ev_ebitda t rr g r = .ok ((1 - t) * (1 - rr) * (1 + g) / (r - g)))) ∧
    (∀ om t rr g r : ℚ,
      (justified_ev_sales om t rr g r = .error .valueError ↔ r ≤ g) ∧
      (g < r →
        justified_ev_sales om t rr g r = .ok (om * (1 - t) * (1 - rr) * (1 + g) / (r - g)))) ∧
    gordon_growth_model 5 0.08 0.08 = .error .valueError := by
  refine ⟨fun fcf r g => stable_guard_iff fcf r g,
    fun fcfe r g => stable_guard_iff fcfe r g,
    fun div r g => stable_guard_iff div r g,
    fun po g r => stable_guard_iff (po * (1 + g)) r g,
    fun roe g r => stable_guard_iff (roe - g) r g,
    fun pm po g r => stable_guard_iff (pm * po * (1 + g)) r g,
    fun t rr g r => stable_guard_iff ((1 - t) * (1 - rr) * (1 + g)) r g,
    fun om t rr g r => stable_guard_iff (om * (1 - t) * (1 - rr) * (1 + g)) r g,
    ?_⟩
  simp [gordon_growth_model]

/-- Closed witness for `stable_growth_family_guard`: the strict-inequality
branch of the Gordon growth model at the concrete input `(5, 0.08, 0.04)`. -/
theorem stable_growth_family_guard_witness :
    (0.04 : ℚ) < 0.08 ∧ gordon_growth_model 5 0.08 0.04 = .ok (5 / (0.08 - 0.04)) :=
  ⟨by norm_num, (stable_growth_family_guard.2.2.1 5 0.08 0.04).2 (by norm_num)⟩

/-- C5: `sample_variance` divides the sum of squared deviations from the
mean by `n - 1` and rejects lists with fewer than two points;
`population_variance` divides the same sum by `n` and rejects the empty
list; on `[2,4,4,4,5,5,7,9]` they return `32/7` and `4` respectively. -/
theorem variance_formulas :
    (∀ data : List ℚ,
      (2 ≤ data.length →
        sample_variance data =
          .ok ((data.map (fun x => (x - data.sum / data.length) ^ 2)).sum /
            ((data.length : ℚ) - 1))) ∧
      (data.length < 2 → sample_variance data = .error .valueError) ∧
      (data ≠ [] →
        population_variance data =
          .ok ((data.map (fun x => (x - data.sum / data.length) ^ 2)).sum / data.length))) ∧
    population_variance [] = .error .valueError ∧
    sample_variance [2, 4, 4, 4, 5, 5, 7, 9] = .ok (32 / 7) ∧
    population_variance [2, 4, 4, 4, 5, 5, 7, 9] = .ok 4 := by
  refine ⟨fun data => ⟨fun h2 => ?_, fun hlt => ?_, fun hne => ?_⟩, rfl,
    by norm_num [sample_variance], by norm_num [population_variance]⟩
  · rw [sample_variance, if_neg (by omega)]
    rw [Nat.cast_sub (by omega : 1 ≤ data.length), Nat.cast_one]
  · rw [sample_variance, if_pos hlt]
  · rw [population_variance,
      if_neg (fun h => hne (List.length_eq_zero.mp h))]

/-- Closed witness for `variance_formulas`: each guarded branch evaluated at
a concrete list. -/
theorem variance_formulas_witness :
    (([] : List ℚ).length < 2 ∧ sample_variance [] = .error .valueError) ∧
    (2 ≤ ([0, 2] : List ℚ).length ∧ sample_variance [0, 2] = .ok 2) ∧
    (([1] : List ℚ) ≠ [] ∧ population_variance [1] = .ok 0) := by
  refine ⟨⟨by norm_num, (variance_formulas.1 []).2.1 (by norm_num)⟩,
    ⟨by norm_num, ?_⟩, ⟨by simp, ?_⟩⟩
  · have h := (variance_formulas.1 [0, 2]).1 (by norm_num)
    norm_num at h
    convert h using 2
  · have h := (variance_formulas.1 [1]).2.2 (by simp)
    norm_num at h
    convert h using 2

/-- C7: `downside_deviation` rejects the empty list with the invalid-input
error and otherwise returns the square root of the sum of squared
shortfalls `min(0, r - MAR)` divided by `n` (not `n - 1`). -/
theorem downside_deviation_spec :
    (∀ (returns : List ℚ) (mar : ℚ), returns ≠ [] →
      downside_deviation returns mar =
        .ok (Real.sqrt
          (((returns.map (fun r => (min 0 (r - mar)) ^ 2)).sum / returns.length : ℚ)))) ∧
    ∀ mar : ℚ, downside_deviation [] mar = .error .valueError := by
  refine ⟨fun returns mar hne => ?_, fun mar => rfl⟩
  rw [downside_deviation, if_neg (fun h => hne (List.length_eq_zero.mp h))]

/-- Closed witness for `downside_deviation_spec`: evaluated at the returns
list `[-1, 1]` with `MAR = 0`, giving `√(1/2)`. -/
theorem downside_deviation_spec_witness :
    ([(-1 : ℚ), 1] ≠ []) ∧
    downside_deviation [(-1 : ℚ), 1] 0 = .ok (Real.sqrt ((1 : ℝ) / 2)) := by
  refine ⟨by simp, ?_⟩
  have h := downside_deviation_spec.1 [(-1 : ℚ), 1] 0 (by simp)
  norm_num at h
  rw [h]
  norm_num

/-- C6: `compound_annual_growth_rate` raises the invalid-input error exactly
when the beginning value or the number of years is zero, and otherwise
returns `((ending/beginning)^(1/years) - 1) * 100`; at `(200, 100, 5)` the
result is `(2^(1/5) - 1) * 100`, which lies strictly between 14.86 and
14.88. -/
theorem cagr_spec :
    (∀ e b y : ℚ,
      (compound_annual_growth_rate e b y = .error .valueError ↔ b = 0 ∨ y = 0) ∧
      (b ≠ 0 → y ≠ 0 →
        compound_annual_growth_rate e b y =
          .ok ((((e / b : ℚ) : ℝ) ^ (((1 / y : ℚ) : ℝ)) - 1) * 100))) ∧
    ∃ v : ℝ, compound_annual_growth_rate 200 100 5 = .ok v ∧
      v = ((2 : ℝ) ^ ((1 : ℝ) / 5) - 1) * 100 ∧ 14.86 < v ∧ v < 14.88 := by
  have ht : ((2 : ℝ) ^ ((1 : ℝ) / 5)) ^ (5 : ℕ) = 2 := by
    rw [← Real.rpow_natCast ((2 : ℝ) ^ ((1 : ℝ) / 5)) 5,
      ← Real.rpow_mul (by norm_num : (0 : ℝ) ≤ 2)]
    norm_num
  have hlow : (1.1486 : ℝ) < (2 : ℝ) ^ ((1 : ℝ) / 5) := by
    by_contra hle
    push_neg at hle
    have := pow_le_pow_left₀ (by positivity) hle 5
    rw [ht] at this
    norm_num at this
  have hhigh : (2 : ℝ) ^ ((1 : ℝ) / 5) < 1.1488 := by
    refine lt_of_pow_lt_pow_left₀ 5 (by norm_num) ?_
    rw [ht]
    norm_num
  refine ⟨fun e b y => ⟨?_, fun hb hy => ?_⟩, ?_⟩
  · rw [compound_annual_growth_rate]
    split_ifs with h1 h2
    · simp [h1]
    · simp [h1, h2]
    · simp [h1, h2]
  · rw [compound_annual_growth_rate, if_neg hb, if_neg hy]
  · refine ⟨((2 : ℝ) ^ ((1 : ℝ) / 5) - 1) * 100, ?_, rfl, by nlinarith, by nlinarith⟩
    rw [compound_annual_growth_rate, if_neg (by norm_num), if_neg (by norm_num)]
    norm_num

/-- Closed witness for `cagr_spec`: the non-error branch at `(200, 100, 5)`. -/
theorem cagr_spec_witness :
    (100 : ℚ) ≠ 0 ∧ (5 : ℚ) ≠ 0 ∧
    compound_annual_growth_rate 200 100 5 =
      .ok ((((200 / 100 : ℚ) : ℝ) ^ (((1 / 5 : ℚ) : ℝ)) - 1) * 100) :=
  ⟨by norm_num, by norm_num, (cagr_spec.1 200 100 5).2 (by norm_num) (by norm_num)⟩

/-- C10: `graham_number` returns `√(22.5 · eps · bvps)` whenever the radicand
is non-negative, and when `eps · bvps < 0` it reaches `math.sqrt`'s domain
error rather than the catalog's explicit invalid-input guard. -/
theorem graham_number_unguarded :
    ∀ eps bvps : ℚ,
      (0 ≤ 22.5 * eps * bvps →
        graham_number eps bvps = .ok (Real.sqrt ((22.5 * eps * bvps : ℚ)))) ∧
      (eps * bvps < 0 →
        graham_number eps bvps = .error .mathDomainError ∧
        graham_number eps bvps ≠ .error .valueError) := by
  intro eps bvps
  constructor
  · intro h
    rw [graham_number, math_sqrt, if_neg (not_lt.mpr h)]
  · intro h
    have hneg : 22.5 * eps * bvps < 0 := by
      rw [mul_assoc]
      exact mul_neg_of_pos_of_neg (by norm_num) h
    have he : graham_number eps bvps = .error .mathDomainError := by
      rw [graham_number, math_sqrt, if_pos hneg]
    refine ⟨he, ?_⟩
    rw [he]
    intro hcontra
    injection hcontra with h'
    exact PyErr.noConfusion h'

/-- Closed witness for `graham_number_unguarded`: the non-negative branch at
`(1, 1)` and the domain-error branch at `(1, -1)`. -/
theorem graham_number_unguarded_witness :
    ((0 : ℚ) ≤ 22.5 * 1 * 1 ∧ graham_number 1 1 = .ok (Real.sqrt ((22.5 : ℝ)))) ∧
    ((1 : ℚ) * (-1) < 0 ∧ graham_number 1 (-1) = .error .mathDomainError) := by
  refine ⟨⟨by norm_num, ?_⟩,
    ⟨by norm_num, ((graham_number_unguarded 1 (-1)).2 (by norm_num)).1⟩⟩
  have h := (graham_number_unguarded 1 1).1 (by norm_num)
  norm_num at h ⊢
  exact h

/-- C9: for any list of at least two points with non-zero sample variance,
the correlation coefficient of the list with itself is `1`, and with its
element-wise negation is `-1`. -/
theorem correlation_self_and_neg :
    ∀ x : List ℚ, 2 ≤ x.length → sample_variance x ≠ .ok 0 →
      correlation_coefficient x x = .ok 1 ∧
      correlation_coefficient x (x.map (fun a => -a)) = .ok (-1) := by
  intro x h2 hv0
  have hsv := sample_variance_ok x h2
  set V : ℚ := (x.map (fun a => (a - x.sum / x.length) ^ 2)).sum /
    (↑(x.length - 1) : ℚ) with hVdef
  have hVne : V ≠ 0 := fun h => hv0 (by rw [hsv, h])
  have hS0 : 0 ≤ (x.map (fun a => (a - x.sum / x.length) ^ 2)).sum := by
    refine List.sum_nonneg ?_
    intro a ha
    simp only [List.mem_map] at ha
    obtain ⟨b, _, rfl⟩ := ha
    positivity
  have hV0 : 0 ≤ V := by
    rw [hVdef]
    exact div_nonneg hS0 (by positivity)
  have hVpos : 0 < V := lt_of_le_of_ne hV0 (Ne.symm hVne)
  have hcov : sample_covariance x x = .ok V := by
    rw [sample_covariance_ok x x rfl h2, hVdef, zip_self_eq_map, List.map_map,
      show ((fun p : ℚ × ℚ => (p.1 - x.sum / (x.length : ℚ)) *
          (p.2 - x.sum / (x.length : ℚ))) ∘ fun a : ℚ => (a, a)) =
        (fun a : ℚ => (a - x.sum / (x.length : ℚ)) ^ 2) from by
          funext a
          simp only [Function.comp_apply]
          ring]
  have hstd : sample_standard_deviation x = .ok (Real.sqrt V) :=
    sample_standard_deviation_ok x V hsv hV0
  have hsne : Real.sqrt (V : ℝ) ≠ 0 := by
    rw [ne_eq, Real.sqrt_eq_zero']
    push_neg
    exact_mod_cast hVpos
  have hsq : Real.sqrt (V : ℝ) * Real.sqrt (V : ℝ) = (V : ℝ) :=
    Real.mul_self_sqrt (by exact_mod_cast hV0)
  constructor
  · rw [correlation_coefficient, if_neg (by simp), hcov, except_bind_ok,
      hstd, except_bind_ok, except_bind_ok, if_neg (by simp [hsne]), hsq]
    congr 1
    exact div_self (by exact_mod_cast hVne)
  · have hlen' : (x.map (fun a => -a)).length = x.length := List.length_map x _
    have hsumy : (x.map (fun a => -a)).sum = -x.sum := list_sum_neg x
    have hvar_y : sample_variance (x.map (fun a => -a)) = .ok V := by
      rw [sample_variance_ok (x.map (fun a => -a)) (by rw [hlen']; exact h2),
        hVdef, hsumy, hlen', List.map_map,
        show ((fun a : ℚ => (a - -x.sum / (x.length : ℚ)) ^ 2) ∘ fun a : ℚ => -a) =
          (fun a : ℚ => (a - x.sum / (x.length : ℚ)) ^ 2) from by
            funext a
            simp only [Function.comp_apply]
            ring]
    have hcov_neg : sample_covariance x (x.map (fun a => -a)) = .ok (-V) := by
      rw [sample_covariance_ok x (x.map (fun a => -a)) (by rw [hlen']) h2,
        hsumy, hlen', zip_map_neg, List.map_map]
      have hfun : ((fun p : ℚ × ℚ => (p.1 - x.sum / x.length) *
          (p.2 - -x.sum / x.length)) ∘ (fun a => (a, -a))) =
          fun a => -((a - x.sum / x.length) ^ 2) := by
        funext a
        simp
        ring
      rw [hfun, sum_map_neg, hVdef, neg_div]
    have hstdy : sample_standard_deviation (x.map (fun a => -a)) = .ok (Real.sqrt V) :=
      sample_standard_deviation_ok _ V hvar_y hV0
    rw [correlation_coefficient, if_neg (by simp [hlen']), hcov_neg, except_bind_ok,
      hstd, except_bind_ok, hstdy, except_bind_ok, if_neg (by simp [hsne]), hsq]
    congr 1
    push_cast
    rw [neg_div]
    congr 1
    exact div_self (by exact_mod_cast hVne)

/-- Closed witness for `correlation_self_and_neg`: the list `[0, 1]` has two
points and sample variance `1/2 ≠ 0`; its self-correlation is `1` and its
correlation with `[0, -1]` is `-1`. -/
theorem correlation_self_and_neg_witness :
    (2 ≤ ([0, 1] : List ℚ).length ∧ sample_variance [0, 1] ≠ .ok 0) ∧
    correlation_coefficient [0, 1] [0, 1] = .ok 1 ∧
    correlation_coefficient [0, 1] (([0, 1] : List ℚ).map (fun a => -a)) = .ok (-1) := by
  have hvar : sample_variance ([0, 1] : List ℚ) = .ok (1 / 2) := by
    norm_num [sample_variance]
  have hne : sample_variance ([0, 1] : List ℚ) ≠ .ok 0 := by
    rw [hvar]
    intro h
    injection h with h'
    norm_num at h'
  have h := correlation_self_and_neg [0, 1] (by norm_num) hne
  refine ⟨⟨by norm_num, hne⟩, h.1, h.2⟩

end Calculator
